import Mathlib

/-!
# Shallow embedding of `cluster/juju/layers/kubernetes-master/reactive/kubernetes_master.py`

The Python module is a reactive Juju charm handler file.  Its functions are
sequences of side effects (subprocess calls, flag set/removal, template
rendering, status updates) interleaved with pure string manipulation.

The embedding models:
  * the pure string helpers (`str.split`, `str.join`, `str.rstrip`,
    `str.format`, `os.path.join`) as executable Lean functions over `String`,
    with Python semantics (in particular `str.format` raises `IndexError`
    when a replacement index is out of range);
  * the external world (exit codes of subprocess commands, the `dpkg`
    architecture output, the `unitdata` key-value store, the charm config,
    unit addresses, `os.path.exists`) as an explicit environment `Env`;
  * each side effect as an `Event` appended to a trace, and Python
    exceptions as an `Except`-style error outcome, packaged in `Res`;
  * each Python function as a Lean function `Env → ... → Res _`, following
    the source line by line.
-/

namespace KMaster

/-- Python exceptions that the module can raise. -/
inductive Err : Type where
  /-- `raise Exception(msg)` -/
  | exception (msg : String)
  /-- `str.format` with a replacement index out of range. -/
  | indexError
  /-- malformed format string (not reachable from this module's templates). -/
  | valueError
  /-- calling a string method on `None` (e.g. `None.split`). -/
  | attributeError
  /-- `subprocess.check_call` on a command that exited non-zero. -/
  | calledProcessError (cmd : String)
deriving DecidableEq, Repr

/-- A primitive Python value stored in a render context dictionary. -/
inductive Prim : Type where
  | str (s : String)
  | int (n : Int)
  /-- Python `None` (e.g. a missing config option returned by `.get`). -/
  | pynone
deriving DecidableEq, Repr

/-- A value in the render context: a primitive, or a one-level nested
dictionary (the `pillar` sub-mapping).  The module never nests deeper. -/
inductive Value : Type where
  | prim (p : Prim)
  | dict (d : List (String × Prim))
deriving DecidableEq, Repr

/-- A Python dict built by successive `dict.update` calls, modelled as the
list of bindings in insertion order; on lookup the *last* binding wins,
matching `dict.update` overwrite semantics. -/
abbrev Ctx := List (String × Value)

/-- Dictionary lookup: the value of the last binding of `k`, if any. -/
def ctxGet (c : Ctx) (k : String) : Option Value :=
  match c with
  | [] => none
  | (k', v) :: rest =>
    match ctxGet rest k with
    | some v' => some v'
    | none => if k' == k then some v else none

/-- An observable side effect performed by a handler, in program order.
Subprocess commands are recorded by the command string handed to
`shlex.split` (the argv join); none of the module's commands contain
quoting, so this is faithful. -/
inductive Event : Type where
  /-- `subprocess.call` / `subprocess.check_call` / `subprocess.check_output`
  of a command. -/
  | call (cmd : String)
  /-- `hookenv.status_set(level, message)` -/
  | statusSet (level msg : String)
  /-- `hookenv.log(msg)` -/
  | log (msg : String)
  /-- `charms.reactive.set_state(flag)` -/
  | setState (flag : String)
  /-- `charms.reactive.remove_state(flag)` -/
  | removeState (flag : String)
  /-- `reldata.save_client_credentials(key, cert, ca)` -/
  | saveCreds (key cert ca : String)
  /-- `os.makedirs(dir)` -/
  | makedirs (dir : String)
  /-- `charmhelpers...templating.render(source, target, context)` -/
  | render (source target : String) (ctx : Ctx)
  /-- Python `print` -/
  | printed (s : String)
deriving DecidableEq, Repr

instance {ε α : Type} [DecidableEq ε] [DecidableEq α] : DecidableEq (Except ε α) :=
  fun x y =>
    match x, y with
    | .ok a, .ok b =>
      if h : a = b then isTrue (by rw [h]) else isFalse (by simp [h])
    | .error a, .error b =>
      if h : a = b then isTrue (by rw [h]) else isFalse (by simp [h])
    | .ok _, .error _ => isFalse (by simp)
    | .error _, .ok _ => isFalse (by simp)

/-- Outcome of running a handler: the trace of events it performed (up to
the point of an exception, if one was raised) and its result or error. -/
structure Res (α : Type) : Type where
  trace : List Event
  out : Except Err α
deriving DecidableEq, Repr

namespace Res

def bind {α β : Type} (r : Res α) (f : α → Res β) : Res β :=
  match r.out with
  | .error e => ⟨r.trace, .error e⟩
  | .ok x => ⟨r.trace ++ (f x).trace, (f x).out⟩

instance : Monad Res where
  pure x := ⟨[], .ok x⟩
  bind := Res.bind

/-- Record one event. -/
def tell (e : Event) : Res Unit := ⟨[e], .ok ()⟩

/-- Raise a Python exception. -/
def raise {α : Type} (e : Err) : Res α := ⟨[], .error e⟩

/-- Lift a pure, possibly-raising computation. -/
def ofExcept {α : Type} : Except Err α → Res α
  | .ok x => ⟨[], .ok x⟩
  | .error e => ⟨[], .error e⟩

end Res

/-! ## Pure Python string helpers -/

/-- Helper for `pySplitChar`: accumulates the current field (reversed). -/
def splitOnCharAux (c : Char) : List Char → List Char → List String
  | [], acc => [String.mk acc.reverse]
  | x :: xs, acc =>
    if x = c then String.mk acc.reverse :: splitOnCharAux c xs []
    else splitOnCharAux c xs (x :: acc)

/-- Python `s.split(sep)` for a single-character separator: splits at every
occurrence, keeping empty fields; always returns a non-empty list. -/
def pySplitChar (s : String) (c : Char) : List String :=
  splitOnCharAux c s.data []

/-- Python `sep.join(parts)`. -/
def pyJoin (sep : String) : List String → String
  | [] => ""
  | [x] => x
  | x :: y :: xs => x ++ sep ++ pyJoin sep (y :: xs)

/-- Python `s.rstrip()`: remove trailing whitespace. -/
def pyRstrip (s : String) : String :=
  String.mk (s.data.reverse.dropWhile Char.isWhitespace).reverse

/-- `os.path.join a b` for a non-absolute second component: insert a slash
unless `a` already ends with one. -/
def pathJoin (a b : String) : String :=
  if a.data.getLast? = some '/' then a ++ b else a ++ "/" ++ b

/-- Core of Python `str.format` restricted to numbered positional fields
(`\x7b0\x7d`, `\x7b1\x7d`, ...), the only form this module uses.  The first
argument of the recursion is `true` inside a replacement field, with `acc`
the index parsed so far.  An index `≥ args.length` raises `IndexError`,
exactly as in Python.  Brace characters are recognised by code point
(123 = opening brace, 125 = closing brace). -/
def pyFormatAux (args : List String) : Bool → Nat → List Char → Except Err (List Char)
  | false, _, [] => .ok []
  | false, _, x :: xs =>
    if x.toNat = 123 then pyFormatAux args true 0 xs
    else (pyFormatAux args false 0 xs).map (fun t => x :: t)
  | true, acc, x :: xs =>
    if x.toNat = 125 then
      match args.get? acc with
      | some a => (pyFormatAux args false 0 xs).map (fun t => a.data ++ t)
      | none => .error .indexError
    else if x.isDigit then pyFormatAux args true (acc * 10 + (x.toNat - 48)) xs
    else .error .valueError
  | true, _, [] => .error .valueError

/-- Python `template.format(*args)` for numbered positional fields. -/
def pyFormat (template : String) (args : List String) : Except Err String :=
  (pyFormatAux args false 0 template.data).map String.mk

/-! ## The external world -/

/-- Everything the module reads from outside in one handler invocation. -/
structure Env : Type where
  /-- `hookenv.charm_dir()` -/
  charm_dir : String
  /-- exit code returned by `subprocess.call` for a given command string. -/
  callExit : String → Int
  /-- stdout of `check_output(['dpkg', '--print-architecture'])`, before
  `rstrip`; the call is assumed to succeed. -/
  rawArch : String
  /-- `unitdata.kv().get('sdn_subnet')` -/
  sdn_subnet : Option String
  /-- `hookenv.config().get('cidr')` -/
  cfg_cidr : Option String
  /-- `hookenv.config().get('dns_domain')` -/
  cfg_dns_domain : Option String
  /-- `hookenv.unit_get('private-address')` -/
  private_address : String
  /-- `hookenv.unit_get('public-address')` -/
  public_address : String
  /-- `os.path.exists` -/
  pathExists : String → Bool

/-- Modelled from the spec: the charm's configuration mapping merged into
the render context by `context.update(hookenv.config())`.  The charm's
`config.yaml` is not among the sources; the spec names exactly the `cidr`
option and the DNS domain option as the configuration this core consumes,
so the mapping is modelled as carrying (at most) those two keys. -/
def configCtx (env : Env) : Ctx :=
  (match env.cfg_cidr with
   | some c => [("cidr", Value.prim (.str c))]
   | none => []) ++
  (match env.cfg_dns_domain with
   | some d => [("dns_domain", Value.prim (.str d))]
   | none => [])

/-- The etcd relation object (`etcd` / `reldata`). -/
structure Reldata : Type where
  /-- `reldata.get_connection_string()` -/
  connection_string : String

/-- A non-empty string of decimal digits (one dotted-decimal octet, or a
mask width). -/
def isDigitString (s : String) : Bool :=
  !s.data.isEmpty && s.data.all Char.isDigit

/-- A concrete environment used to exercise the handlers: every command
succeeds, both render directories already exist. -/
def envDemo : Env where
  charm_dir := "/charm"
  callExit := fun _ => 0
  rawArch := "amd64\n"
  sdn_subnet := some "10.1.2.0/24"
  cfg_cidr := some "10.0.0.0/16"
  cfg_dns_domain := some "cluster.local"
  private_address := "10.9.9.9"
  public_address := "1.2.3.4"
  pathExists := fun _ => true

/-- `envDemo` with selected commands failing (exit code 1). -/
def envDemoFail (failing : List String) : Env :=
  { envDemo with callExit := fun c => if c ∈ failing then 1 else 0 }

/-- `envDemo` on an s390x machine, which kubernetes does not support. -/
def envArchBad : Env :=
  { envDemo with rawArch := "s390x\n" }

/-- `envDemo` with the `files/kubernetes` working directory missing. -/
def envDirMissing : Env :=
  { envDemo with pathExists := fun d => d ≠ "/charm/files/kubernetes" }

/-- `install()` — unpack the master binaries and copy them into place.
Gated by `@when_not('kube_master_components.installed')`. -/
def install (env : Env) : Res Unit := do
  let files_dir := pathJoin env.charm_dir "files"
  let archive := pathJoin files_dir "kubernetes.tar.gz"
  let command ← Res.ofExcept (pyFormat "tar -xvzf {0} -C {1}" [archive, files_dir])
  Res.tell (.call command)
  let _return_code := env.callExit command
  let dest_dir := "/usr/local/bin/"
  let services := ["kube-apiserver", "kube-controller-manager",
                   "kube-scheduler", "kube-dns"]
  services.forM fun service => do
    let inst ← Res.ofExcept (pyFormat "install {0}/{1} {3}" [files_dir, service, dest_dir])
    Res.tell (.call inst)
    let return_code := env.callExit inst
    if return_code ≠ 0 then
      let msg ← Res.ofExcept (pyFormat "Unable to install {0}" [service])
      Res.raise (.exception msg)
    else
      pure ()

/-- `arch()` — detected package architecture, validated against the
supported set; raises on anything else. -/
def arch (env : Env) : Res String := do
  Res.tell (.call "dpkg --print-architecture")
  let architecture := pyRstrip env.rawArch
  if architecture ∉ ["amd64", "arm", "arm64", "ppc64le"] then
    let message ← Res.ofExcept
      (pyFormat "Unsupported machine architecture: {0}" [architecture])
    Res.tell (.statusSet "blocked" message)
    Res.raise (.exception message)
  else
    pure architecture

/-- `get_dns_ip(cidr)` — drop the mask, drop the last octet, append `.10`. -/
def get_dns_ip (cidr : String) : String :=
  let ip := (pySplitChar cidr '/').headD ""
  pyJoin "." (pySplitChar ip '.').dropLast ++ ".10"

/-- `get_sdn_ip(cidr)` — drop the mask, drop the last octet, append `.1`. -/
def get_sdn_ip (cidr : String) : String :=
  let ip := (pySplitChar cidr '/').headD ""
  pyJoin "." (pySplitChar ip '.').dropLast ++ ".1"

/-- `gather_sdn_data()` — build the `pillar` sub-dictionary.  Pure apart
from reads of the key-value store and config; calling `.split` on a `None`
cidr raises `AttributeError`, as in Python. -/
def gather_sdn_data (env : Env) : Except Err Ctx := do
  let dns_server ←
    match env.sdn_subnet with
    | some subnet => Except.ok (get_dns_ip subnet)
    | none =>
      match env.cfg_cidr with
      | some cidr => Except.ok (get_dns_ip cidr)
      | none => Except.error .attributeError
  let dns_domain : Prim :=
    match env.cfg_dns_domain with
    | some d => .str d
    | none => .pynone
  Except.ok [("pillar", Value.dict
    [("dns_server", .str dns_server),
     ("dns_replicas", .int 1),
     ("dns_domain", dns_domain)])]

/-- Lines 98–134 of the source: the context-assembly half of
`render_files`, through the `context.update({'arch': ...})` call. -/
def buildContext (env : Env) (reldata : Option Reldata) : Res Ctx := do
  let sdn ← Res.ofExcept (gather_sdn_data env)
  let context : Ctx := [] ++ sdn
  let context := context ++ configCtx env
  let context ←
    match reldata with
    | some rd => do
      let connection_string := rd.connection_string
      let etcd_dir := "/etc/ssl/etcd"
      let ca := pathJoin etcd_dir "client-ca.pem"
      let key := pathJoin etcd_dir "client-key.pem"
      let cert := pathJoin etcd_dir "client-cert.pem"
      Res.tell (.saveCreds key cert ca)
      pure (context ++
        [("etcd_dir", Value.prim (.str etcd_dir)),
         ("connection_string", Value.prim (.str connection_string)),
         ("etcd_ca", Value.prim (.str ca)),
         ("etcd_key", Value.prim (.str key)),
         ("etcd_cert", Value.prim (.str cert))])
    | none => pure context
  let charm_dir := env.charm_dir
  let rendered_kube_dir := pathJoin charm_dir "files/kubernetes"
  if !(env.pathExists rendered_kube_dir) then
    Res.tell (.makedirs rendered_kube_dir)
  let rendered_manifest_dir := pathJoin charm_dir "files/manifests"
  if !(env.pathExists rendered_manifest_dir) then
    Res.tell (.makedirs rendered_manifest_dir)
  let a ← arch env
  pure (context ++
    [("arch", Value.prim (.str a)),
     ("master_address", Value.prim (.str env.private_address)),
     ("manifest_directory", Value.prim (.str rendered_manifest_dir)),
     ("public_address", Value.prim (.str env.public_address)),
     ("private_address", Value.prim (.str env.private_address))])

/-- `render_service(service_name, context)` — render the unit file and the
defaults file for one service. -/
def render_service (service_name : String) (context : Ctx) : Res Unit := do
  let unit_directory := "/etc/systemd/system"
  let source ← Res.ofExcept (pyFormat "{0}.service" [service_name])
  let target := pathJoin unit_directory service_name
  Res.tell (.render source target context)
  let conf_directory ← Res.ofExcept (pyFormat "/etc/defaults/{0}" [service_name])
  let source2 ← Res.ofExcept (pyFormat "{0}.defaults" [service_name])
  let target2 := pathJoin conf_directory service_name
  Res.tell (.render source2 target2 context)

/-- `render_files(reldata=None)` — build the context, then render all four
services with it. -/
def render_files (env : Env) (reldata : Option Reldata := Option.none) : Res Unit := do
  let context ← buildContext env reldata
  render_service "kube-apiserver" context
  render_service "kube-controller-manager" context
  render_service "kube-scheduler" context
  render_service "kube-dns" context

/-- `start_service(service_name)` — `systemctl start`, returning whether
the command exited 0. -/
def start_service (env : Env) (service_name : String) : Res Bool := do
  let start ← Res.ofExcept (pyFormat "systemctl start {0}" [service_name])
  Res.tell (.printed start)
  Res.tell (.call start)
  let return_code := env.callExit start
  pure (return_code == 0)

/-- `start_master(etcd)` — render everything, then start the three master
services, flagging each that started successfully.  Gated by
`@when('k8s.certificate.authority available')` and `@when('etcd.available')`. -/
def start_master (env : Env) (etcd : Reldata) : Res Unit := do
  Res.tell (.statusSet "maintenance"
    "Rendering the Kubernetes master systemd files.")
  render_files env (some etcd)
  Res.tell (.statusSet "maintenance"
    "Starting the Kubernetes master services.")
  let services := ["kube-apiserver", "kube-controller-manager", "kube-scheduler"]
  services.forM fun service => do
    let started ← start_service env service
    if started then
      let flag ← Res.ofExcept (pyFormat "{0}.available" [service])
      Res.tell (.setState flag)
    else
      pure ()

/-- `launch_dns()` — probe the apiserver, ensure the `kube-system`
namespace, re-render, start DNS.  Gated by `@when('apiserver.available')`
and `@when_not('kube-dns.available')`. -/
def launch_dns (env : Env) : Res Unit := do
  Res.tell (.statusSet "maintenance"
    "Rendering the Kubernetes DNS systemd files.")
  Res.tell (.call "kubectl cluster-info")
  let return_code := env.callExit "kubectl cluster-info"
  if return_code ≠ 0 then
    Res.tell (.log "kubectl command failed, waiting for apiserver to start.")
    Res.tell (.removeState "kubedns.available")
    pure ()
  else do
    Res.tell (.call "kubectl get namespace kube-system")
    let return_code2 := env.callExit "kubectl get namespace kube-system"
    if return_code2 ≠ 0 then
      Res.tell (.call "kubectl create namespace kube-system")
      if env.callExit "kubectl create namespace kube-system" ≠ 0 then
        Res.raise (.calledProcessError "kubectl create namespace kube-system")
      else
        pure ()
    else
      pure ()
    render_files env
    let started ← start_service env "kube-dns"
    if started then
      Res.tell (.setState "kube-dns.available")
    else
      pure ()

/-! ### Derived descriptions of traces and contexts

The following definitions name the traces and contexts that the handlers
produce; the evaluation lemmas below prove that the translated functions
produce exactly these. -/

/-- The tar-extraction command `install` builds. -/
def tarCommand (env : Env) : String :=
  "tar -xvzf " ++ pathJoin (pathJoin env.charm_dir "files") "kubernetes.tar.gz" ++
    " -C " ++ pathJoin env.charm_dir "files"

/-- The etcd-derived portion of the render context. -/
def etcdCtx : Option Reldata → Ctx
  | some r =>
    [("etcd_dir", Value.prim (.str "/etc/ssl/etcd")),
     ("connection_string", Value.prim (.str r.connection_string)),
     ("etcd_ca", Value.prim (.str "/etc/ssl/etcd/client-ca.pem")),
     ("etcd_key", Value.prim (.str "/etc/ssl/etcd/client-key.pem")),
     ("etcd_cert", Value.prim (.str "/etc/ssl/etcd/client-cert.pem"))]
  | none => []

/-- The `pillar` sub-dictionary produced by `gather_sdn_data` when the DNS
address is derived from the cidr string `dnsCidr`. -/
def pillarOf (env : Env) (dnsCidr : String) : Ctx :=
  [("pillar", Value.dict
    [("dns_server", .str (get_dns_ip dnsCidr)),
     ("dns_replicas", .int 1),
     ("dns_domain",
       match env.cfg_dns_domain with
       | some d => .str d
       | none => .pynone)])]

/-- Trace of the context-assembly half of `render_files` when architecture
detection succeeds. -/
def buildTrace (env : Env) (rd : Option Reldata) : List Event :=
  (match rd with
   | some _ =>
     [Event.saveCreds "/etc/ssl/etcd/client-key.pem"
        "/etc/ssl/etcd/client-cert.pem" "/etc/ssl/etcd/client-ca.pem"]
   | none => []) ++
  (if env.pathExists (pathJoin env.charm_dir "files/kubernetes") then []
   else [Event.makedirs (pathJoin env.charm_dir "files/kubernetes")]) ++
  (if env.pathExists (pathJoin env.charm_dir "files/manifests") then []
   else [Event.makedirs (pathJoin env.charm_dir "files/manifests")]) ++
  [Event.call "dpkg --print-architecture"]

/-- Trace of the context-assembly half of `render_files` when architecture
detection fails: same as `buildTrace` but ending in the blocked status. -/
def buildTraceFail (env : Env) (rd : Option Reldata) : List Event :=
  (match rd with
   | some _ =>
     [Event.saveCreds "/etc/ssl/etcd/client-key.pem"
        "/etc/ssl/etcd/client-cert.pem" "/etc/ssl/etcd/client-ca.pem"]
   | none => []) ++
  (if env.pathExists (pathJoin env.charm_dir "files/kubernetes") then []
   else [Event.makedirs (pathJoin env.charm_dir "files/kubernetes")]) ++
  (if env.pathExists (pathJoin env.charm_dir "files/manifests") then []
   else [Event.makedirs (pathJoin env.charm_dir "files/manifests")]) ++
  [Event.call "dpkg --print-architecture",
   Event.statusSet "blocked"
     ("Unsupported machine architecture: " ++ pyRstrip env.rawArch)]

/-- The full render context assembled by `render_files`, given the output
`sdnCtx` of `gather_sdn_data`. -/
def fullContext (env : Env) (rd : Option Reldata) (sdnCtx : Ctx) : Ctx :=
  sdnCtx ++ configCtx env ++ etcdCtx rd ++
  [("arch", Value.prim (.str (pyRstrip env.rawArch))),
   ("master_address", Value.prim (.str env.private_address)),
   ("manifest_directory", Value.prim (.str (pathJoin env.charm_dir "files/manifests"))),
   ("public_address", Value.prim (.str env.public_address)),
   ("private_address", Value.prim (.str env.private_address))]

/-- The eight render events `render_files` performs, in order. -/
def renderEvents (ctx : Ctx) : List Event :=
  [.render "kube-apiserver.service" "/etc/systemd/system/kube-apiserver" ctx,
   .render "kube-apiserver.defaults" "/etc/defaults/kube-apiserver/kube-apiserver" ctx,
   .render "kube-controller-manager.service" "/etc/systemd/system/kube-controller-manager" ctx,
   .render "kube-controller-manager.defaults"
     "/etc/defaults/kube-controller-manager/kube-controller-manager" ctx,
   .render "kube-scheduler.service" "/etc/systemd/system/kube-scheduler" ctx,
   .render "kube-scheduler.defaults" "/etc/defaults/kube-scheduler/kube-scheduler" ctx,
   .render "kube-dns.service" "/etc/systemd/system/kube-dns" ctx,
   .render "kube-dns.defaults" "/etc/defaults/kube-dns/kube-dns" ctx]

/-! ## The module's functions, translated line by line -/

/-! ## Basic unfolding lemmas for the effect monad -/

@[simp]
theorem Res.bind_mk_ok {α β : Type} (t : List Event) (v : α) (f : α → Res β) :
    Res.bind ⟨t, .ok v⟩ f = ⟨t ++ (f v).trace, (f v).out⟩ := rfl

@[simp]
theorem Res.bind_mk_error {α β : Type} (t : List Event) (e : Err) (f : α → Res β) :
    Res.bind ⟨t, .error e⟩ f = ⟨t, .error e⟩ := rfl

@[simp]
theorem Res.bind_eq_bind {α β : Type} (r : Res α) (f : α → Res β) :
    r >>= f = Res.bind r f := rfl

@[simp]
theorem Res.pure_eq {α : Type} (x : α) : (pure x : Res α) = ⟨[], .ok x⟩ := rfl

@[simp]
theorem Res.tell_eq (e : Event) : Res.tell e = ⟨[e], .ok ()⟩ := rfl

@[simp]
theorem Res.ofExcept_ok {α : Type} (x : α) :
    Res.ofExcept (.ok x) = ⟨[], .ok x⟩ := rfl

@[simp]
theorem Res.ofExcept_error {α : Type} (e : Err) :
    Res.ofExcept (α := α) (.error e) = ⟨[], .error e⟩ := rfl

/-! ## Symbolic evaluation of the module's format strings -/

theorem pyFormat_arch_msg (s : String) :
    pyFormat "Unsupported machine architecture: {0}" [s] =
      .ok ("Unsupported machine architecture: " ++ s) := by
  simp [pyFormat, pyFormatAux, Except.map]
  rfl

theorem pyFormat_service (s : String) :
    pyFormat "{0}.service" [s] = .ok (s ++ ".service") := by
  simp [pyFormat, pyFormatAux, Except.map]
  rfl

theorem pyFormat_defaults (s : String) :
    pyFormat "{0}.defaults" [s] = .ok (s ++ ".defaults") := by
  simp [pyFormat, pyFormatAux, Except.map]
  rfl

theorem pyFormat_confdir (s : String) :
    pyFormat "/etc/defaults/{0}" [s] = .ok ("/etc/defaults/" ++ s) := by
  simp [pyFormat, pyFormatAux, Except.map]
  rfl

theorem pyFormat_available (s : String) :
    pyFormat "{0}.available" [s] = .ok (s ++ ".available") := by
  simp [pyFormat, pyFormatAux, Except.map]
  rfl

theorem pyFormat_systemctl (s : String) :
    pyFormat "systemctl start {0}" [s] = .ok ("systemctl start " ++ s) := by
  simp [pyFormat, pyFormatAux, Except.map]
  rfl

theorem pyFormat_tar (a f : String) :
    pyFormat "tar -xvzf {0} -C {1}" [a, f] =
      .ok ("tar -xvzf " ++ a ++ " -C " ++ f) := by
  simp [pyFormat, pyFormatAux, Except.map]
  apply String.ext
  simp [String.data_append]

/-- The copy command's format string raises `IndexError`: it references
replacement index 3 but only three arguments are supplied. -/
theorem pyFormat_install_indexError (f s d : String) :
    pyFormat "install {0}/{1} {3}" [f, s, d] = .error .indexError := by
  simp [pyFormat, pyFormatAux, Except.map]

/-! ## Evaluation lemmas for the handlers -/

theorem arch_supported (env : Env)
    (h : pyRstrip env.rawArch ∈ ["amd64", "arm", "arm64", "ppc64le"]) :
    arch env = ⟨[.call "dpkg --print-architecture"], .ok (pyRstrip env.rawArch)⟩ := by
  simp [arch, h]

theorem arch_unsupported (env : Env)
    (h : pyRstrip env.rawArch ∉ ["amd64", "arm", "arm64", "ppc64le"]) :
    arch env =
      ⟨[.call "dpkg --print-architecture",
        .statusSet "blocked"
          ("Unsupported machine architecture: " ++ pyRstrip env.rawArch)],
       .error (.exception
          ("Unsupported machine architecture: " ++ pyRstrip env.rawArch))⟩ := by
  simp [arch, h, pyFormat_arch_msg, Res.raise]

theorem install_eval (env : Env) :
    install env = ⟨[.call (tarCommand env)], .error .indexError⟩ := by
  simp [install, tarCommand, pyFormat_tar, pyFormat_install_indexError, List.forM]

theorem pathJoin_etcd_ca :
    pathJoin "/etc/ssl/etcd" "client-ca.pem" = "/etc/ssl/etcd/client-ca.pem" := by decide

theorem pathJoin_etcd_key :
    pathJoin "/etc/ssl/etcd" "client-key.pem" = "/etc/ssl/etcd/client-key.pem" := by decide

theorem pathJoin_etcd_cert :
    pathJoin "/etc/ssl/etcd" "client-cert.pem" = "/etc/ssl/etcd/client-cert.pem" := by decide

theorem gather_eval (env : Env) (dnsCidr : String)
    (hsrc : env.sdn_subnet = some dnsCidr ∨
      (env.sdn_subnet = Option.none ∧ env.cfg_cidr = some dnsCidr)) :
    gather_sdn_data env = .ok (pillarOf env dnsCidr) := by
  rcases hsrc with h | ⟨h1, h2⟩
  · simp only [gather_sdn_data, h, pillarOf]
    rfl
  · simp only [gather_sdn_data, h1, h2, pillarOf]
    rfl

theorem render_service_eval (s : String) (ctx : Ctx) :
    render_service s ctx =
      ⟨[.render (s ++ ".service") (pathJoin "/etc/systemd/system" s) ctx,
        .render (s ++ ".defaults") (pathJoin ("/etc/defaults/" ++ s) s) ctx],
       .ok ()⟩ := by
  simp [render_service, pyFormat_service, pyFormat_defaults, pyFormat_confdir]

theorem start_service_eval (env : Env) (s : String) :
    start_service env s =
      ⟨[.printed ("systemctl start " ++ s), .call ("systemctl start " ++ s)],
       .ok (env.callExit ("systemctl start " ++ s) == 0)⟩ := by
  simp [start_service, pyFormat_systemctl]

theorem buildContext_eval (env : Env) (rd : Option Reldata) (sdnCtx : Ctx)
    (hsdn : gather_sdn_data env = .ok sdnCtx)
    (harch : pyRstrip env.rawArch ∈ ["amd64", "arm", "arm64", "ppc64le"]) :
    buildContext env rd = ⟨buildTrace env rd, .ok (fullContext env rd sdnCtx)⟩ := by
  cases rd <;>
  · by_cases h1 : env.pathExists (pathJoin env.charm_dir "files/kubernetes") <;>
    by_cases h2 : env.pathExists (pathJoin env.charm_dir "files/manifests") <;>
    simp [buildContext, hsdn, h1, h2, arch_supported env harch,
      buildTrace, fullContext, etcdCtx, pathJoin_etcd_ca, pathJoin_etcd_key,
      pathJoin_etcd_cert]

theorem buildContext_arch_fail (env : Env) (rd : Option Reldata) (sdnCtx : Ctx)
    (hsdn : gather_sdn_data env = .ok sdnCtx)
    (harch : pyRstrip env.rawArch ∉ ["amd64", "arm", "arm64", "ppc64le"]) :
    buildContext env rd =
      ⟨buildTraceFail env rd,
       .error (.exception
         ("Unsupported machine architecture: " ++ pyRstrip env.rawArch))⟩ := by
  cases rd <;>
  · by_cases h1 : env.pathExists (pathJoin env.charm_dir "files/kubernetes") <;>
    by_cases h2 : env.pathExists (pathJoin env.charm_dir "files/manifests") <;>
    simp [buildContext, hsdn, h1, h2, arch_unsupported env harch,
      buildTraceFail, etcdCtx, pathJoin_etcd_ca, pathJoin_etcd_key,
      pathJoin_etcd_cert]

theorem render_files_eval (env : Env) (rd : Option Reldata) (sdnCtx : Ctx)
    (hsdn : gather_sdn_data env = .ok sdnCtx)
    (harch : pyRstrip env.rawArch ∈ ["amd64", "arm", "arm64", "ppc64le"]) :
    render_files env rd =
      ⟨buildTrace env rd ++ renderEvents (fullContext env rd sdnCtx), .ok ()⟩ := by
  simp [render_files, buildContext_eval env rd sdnCtx hsdn harch,
    render_service_eval, renderEvents]
  decide

theorem render_files_arch_fail (env : Env) (rd : Option Reldata) (sdnCtx : Ctx)
    (hsdn : gather_sdn_data env = .ok sdnCtx)
    (harch : pyRstrip env.rawArch ∉ ["amd64", "arm", "arm64", "ppc64le"]) :
    render_files env rd =
      ⟨buildTraceFail env rd,
       .error (.exception
         ("Unsupported machine architecture: " ++ pyRstrip env.rawArch))⟩ := by
  simp [render_files, buildContext_arch_fail env rd sdnCtx hsdn harch]

/-! ## Lemmas about the Python string helpers -/

theorem splitOnCharAux_not_mem (c : Char) (l acc : List Char) (h : c ∉ l) :
    splitOnCharAux c l acc = [String.mk (acc.reverse ++ l)] := by
  induction l generalizing acc with
  | nil => simp [splitOnCharAux]
  | cons x xs ih =>
    simp only [List.mem_cons, not_or] at h
    have hx : ¬ x = c := fun hxc => h.1 hxc.symm
    simp only [splitOnCharAux, if_neg hx]
    rw [ih _ h.2]
    simp

theorem splitOnCharAux_append (c : Char) (l₁ l₂ acc : List Char) (h : c ∉ l₁) :
    splitOnCharAux c (l₁ ++ c :: l₂) acc =
      String.mk (acc.reverse ++ l₁) :: splitOnCharAux c l₂ [] := by
  induction l₁ generalizing acc with
  | nil => simp [splitOnCharAux]
  | cons x xs ih =>
    simp only [List.mem_cons, not_or] at h
    have hx : ¬ x = c := fun hxc => h.1 hxc.symm
    simp only [List.cons_append, splitOnCharAux, if_neg hx, List.append_eq]
    rw [ih _ h.2]
    simp

theorem pySplitChar_not_mem (s : String) (c : Char) (h : c ∉ s.data) :
    pySplitChar s c = [s] := by
  simp [pySplitChar, splitOnCharAux_not_mem c _ _ h]

theorem pySplitChar_append (s t : String) (c : Char) (h : c ∉ s.data) :
    pySplitChar (s ++ String.singleton c ++ t) c = s :: pySplitChar t c := by
  have hd : (s ++ String.singleton c ++ t).data = s.data ++ c :: t.data := by
    simp [String.data_append]
  simp [pySplitChar, hd, splitOnCharAux_append c _ _ _ h]

theorem not_mem_of_all_digit (l : List Char) (c : Char)
    (hl : l.all Char.isDigit) (hc : c.isDigit = false) : c ∉ l := by
  intro hm
  have := List.all_eq_true.mp hl c hm
  rw [hc] at this
  exact Bool.noConfusion this

theorem pySplitChar_append_dot (s t : String) (h : '.' ∉ s.data) :
    pySplitChar (s ++ "." ++ t) '.' = s :: pySplitChar t '.' :=
  pySplitChar_append s t '.' h

theorem pySplitChar_append_slash (s t : String) (h : '/' ∉ s.data) :
    pySplitChar (s ++ "/" ++ t) '/' = s :: pySplitChar t '/' :=
  pySplitChar_append s t '/' h

theorem not_mem_dotted (x y : String) (c : Char)
    (hx : c ∉ x.data) (hc : ¬ c = '.') (hy : c ∉ y.data) :
    c ∉ (x ++ "." ++ y).data := by
  have hd : (x ++ "." ++ y).data = x.data ++ '.' :: y.data := by
    simp [String.data_append]
  rw [hd]
  simp only [List.mem_append, List.mem_cons, not_or]
  exact ⟨hx, hc, hy⟩

theorem digits_no_dot (s : String) (h : isDigitString s = true) : '.' ∉ s.data := by
  have hall : s.data.all Char.isDigit := (Bool.and_eq_true _ _ |>.mp h).2
  exact not_mem_of_all_digit _ _ hall (by decide)

theorem digits_no_slash (s : String) (h : isDigitString s = true) : '/' ∉ s.data := by
  have hall : s.data.all Char.isDigit := (Bool.and_eq_true _ _ |>.mp h).2
  exact not_mem_of_all_digit _ _ hall (by decide)

/-! ## C5: address derivation on well-formed CIDRs -/

/-- C5: on any CIDR `a.b.c.d/n` made of four decimal octets and a decimal
mask, `get_dns_ip` yields `a.b.c.10` and `get_sdn_ip` yields `a.b.c.1`. -/
theorem derive_ips_on_cidr (a b c d n : String)
    (ha : isDigitString a = true) (hb : isDigitString b = true)
    (hc : isDigitString c = true) (hd : isDigitString d = true)
    (_hn : isDigitString n = true) :
    get_dns_ip (a ++ "." ++ b ++ "." ++ c ++ "." ++ d ++ "/" ++ n) =
        a ++ "." ++ b ++ "." ++ c ++ ".10" ∧
      get_sdn_ip (a ++ "." ++ b ++ "." ++ c ++ "." ++ d ++ "/" ++ n) =
        a ++ "." ++ b ++ "." ++ c ++ ".1" := by
  have hslash : '/' ∉ (a ++ "." ++ b ++ "." ++ c ++ "." ++ d).data := by
    refine not_mem_dotted _ _ _ ?_ (by decide) (digits_no_slash d hd)
    refine not_mem_dotted _ _ _ ?_ (by decide) (digits_no_slash c hc)
    exact not_mem_dotted _ _ _ (digits_no_slash a ha) (by decide) (digits_no_slash b hb)
  have houter := pySplitChar_append_slash (a ++ "." ++ b ++ "." ++ c ++ "." ++ d) n hslash
  have hS : a ++ "." ++ b ++ "." ++ c ++ "." ++ d =
      a ++ "." ++ (b ++ "." ++ (c ++ "." ++ d)) := by
    simp [String.append_assoc]
  have hinner : pySplitChar (a ++ "." ++ b ++ "." ++ c ++ "." ++ d) '.' = [a, b, c, d] := by
    rw [hS, pySplitChar_append_dot _ _ (digits_no_dot a ha),
        pySplitChar_append_dot _ _ (digits_no_dot b hb),
        pySplitChar_append_dot _ _ (digits_no_dot c hc),
        pySplitChar_not_mem _ _ (digits_no_dot d hd)]
  constructor
  · unfold get_dns_ip
    rw [houter]
    simp only [List.headD_cons]
    rw [hinner]
    simp [pyJoin, String.append_assoc]
  · unfold get_sdn_ip
    rw [houter]
    simp only [List.headD_cons]
    rw [hinner]
    simp [pyJoin, String.append_assoc]

/-- C5 witness: the spec's own example, `10.1.2.0/24`. -/
theorem derive_ips_on_cidr_witness :
    isDigitString "10" = true ∧
      get_dns_ip "10.1.2.0/24" = "10.1.2.10" ∧
      get_sdn_ip "10.1.2.0/24" = "10.1.2.1" := by
  obtain ⟨h1, h2⟩ := derive_ips_on_cidr "10" "1" "2" "0" "24"
    (by decide) (by decide) (by decide) (by decide) (by decide)
  refine ⟨by decide, ?_, ?_⟩
  · rw [show ("10.1.2.0/24" : String) =
      "10" ++ "." ++ "1" ++ "." ++ "2" ++ "." ++ "0" ++ "/" ++ "24" from rfl]
    rw [h1]
    rfl
  · rw [show ("10.1.2.0/24" : String) =
      "10" ++ "." ++ "1" ++ "." ++ "2" ++ "." ++ "0" ++ "/" ++ "24" from rfl]
    rw [h2]
    rfl

/-! ## C10: the two derivations agree up to the final octet -/

/-- C10: for every input string, `get_dns_ip` is `get_sdn_ip` with the
character `0` appended: both strip after the first slash, drop the last
dot-separated component, and append `.10` respectively `.1`, with no
validation of the input. -/
theorem dns_eq_sdn_append_zero (cidr : String) :
    get_dns_ip cidr = get_sdn_ip cidr ++ "0" := by
  unfold get_dns_ip get_sdn_ip
  have h10 : (".1" : String) ++ "0" = ".10" := rfl
  rw [String.append_assoc, h10]

/-! ## Lemmas about contexts and traces -/

theorem ctxGet_append (l r : Ctx) (k : String) :
    ctxGet (l ++ r) k =
      match ctxGet r k with
      | some v => some v
      | none => ctxGet l k := by
  induction l with
  | nil => cases hr : ctxGet r k <;> simp [ctxGet, hr]
  | cons p l ih =>
    obtain ⟨k', v⟩ := p
    cases hr : ctxGet r k <;> simp [ctxGet, ih, hr]

theorem setState_not_mem_buildTrace (env : Env) (rd : Option Reldata) (f : String) :
    Event.setState f ∉ buildTrace env rd := by
  cases rd <;> (simp only [buildTrace]; split_ifs <;> simp)

theorem setState_not_mem_renderEvents (ctx : Ctx) (f : String) :
    Event.setState f ∉ renderEvents ctx := by
  simp [renderEvents]

theorem call_mem_buildTrace (env : Env) (rd : Option Reldata) (c : String)
    (h : Event.call c ∈ buildTrace env rd) : c = "dpkg --print-architecture" := by
  revert h
  cases rd <;> (simp only [buildTrace]; split_ifs <;> simp)

theorem call_mem_buildTraceFail (env : Env) (rd : Option Reldata) (c : String)
    (h : Event.call c ∈ buildTraceFail env rd) : c = "dpkg --print-architecture" := by
  revert h
  cases rd <;> (simp only [buildTraceFail]; split_ifs <;> simp)

theorem call_not_mem_renderEvents (ctx : Ctx) (c : String) :
    Event.call c ∉ renderEvents ctx := by
  simp [renderEvents]

theorem render_files_gather_fail (env : Env) (rd : Option Reldata) (e : Err)
    (hg : gather_sdn_data env = .error e) :
    render_files env rd = ⟨[], .error e⟩ := by
  simp [render_files, buildContext, hg]

theorem call_in_render_files (env : Env) (rd : Option Reldata) (c : String)
    (h : Event.call c ∈ (render_files env rd).trace) :
    c = "dpkg --print-architecture" := by
  cases hg : gather_sdn_data env with
  | error e =>
    rw [render_files_gather_fail env rd e hg] at h
    simp at h
  | ok sdnCtx =>
    by_cases ha : pyRstrip env.rawArch ∈ ["amd64", "arm", "arm64", "ppc64le"]
    · rw [render_files_eval env rd sdnCtx hg ha] at h
      rcases List.mem_append.mp h with h | h
      · exact call_mem_buildTrace env rd c h
      · exact absurd h (call_not_mem_renderEvents _ _)
    · rw [render_files_arch_fail env rd sdnCtx hg ha] at h
      exact call_mem_buildTraceFail env rd c h

theorem strAppend_ne_of_ne (a : String) {x y : String} (h : x ≠ y) :
    a ++ x ≠ a ++ y := by
  intro he
  apply h
  apply String.ext
  have hd := congrArg String.data he
  simpa [String.data_append] using hd

theorem pathJoin_files_ne (cd : String) :
    pathJoin cd "files/kubernetes" ≠ pathJoin cd "files/manifests" := by
  unfold pathJoin
  split_ifs
  · exact strAppend_ne_of_ne cd (by decide)
  · exact strAppend_ne_of_ne (cd ++ "/") (by decide)

theorem ctxGet_configCtx (env : Env) (k : String)
    (h1 : ¬ "cidr" = k) (h2 : ¬ "dns_domain" = k) :
    ctxGet (configCtx env) k = none := by
  cases hc : env.cfg_cidr <;> cases hd : env.cfg_dns_domain <;>
    simp [configCtx, ctxGet, h1, h2, hc, hd]

theorem ctxGet_pillarOf (env : Env) (dnsCidr : String) (k : String)
    (h : ¬ "pillar" = k) :
    ctxGet (pillarOf env dnsCidr) k = none := by
  simp [pillarOf, ctxGet, h]

/-! ## C1: start_master flags exactly the services whose start succeeded -/

/-- C1: provided the render step itself can complete (a supported
architecture and a DNS cidr source), `start_master` raises no error, and
for each of kube-apiserver, kube-controller-manager and kube-scheduler the
flag `<service>.available` is set if and only if
`systemctl start <service>` exited 0. -/
theorem start_master_flag_iff (env : Env) (etcd : Reldata) (dnsCidr : String)
    (hsrc : env.sdn_subnet = some dnsCidr ∨
      (env.sdn_subnet = Option.none ∧ env.cfg_cidr = some dnsCidr))
    (harch : pyRstrip env.rawArch ∈ ["amd64", "arm", "arm64", "ppc64le"]) :
    (start_master env etcd).out = .ok () ∧
    ∀ s ∈ (["kube-apiserver", "kube-controller-manager", "kube-scheduler"] : List String),
      (Event.setState (s ++ ".available") ∈ (start_master env etcd).trace ↔
        env.callExit ("systemctl start " ++ s) = 0) := by
  have hg := gather_eval env dnsCidr hsrc
  have hrf := render_files_eval env (some etcd) _ hg harch
  constructor
  · by_cases e1 : env.callExit "systemctl start kube-apiserver" = 0 <;>
    by_cases e2 : env.callExit "systemctl start kube-controller-manager" = 0 <;>
    by_cases e3 : env.callExit "systemctl start kube-scheduler" = 0 <;>
    simp [start_master, hrf, start_service_eval, pyFormat_available, List.forM,
      e1, e2, e3]
  · intro s hs
    obtain rfl | rfl | rfl :
        s = "kube-apiserver" ∨ s = "kube-controller-manager" ∨ s = "kube-scheduler" := by
      simpa using hs
    all_goals
      by_cases e1 : env.callExit "systemctl start kube-apiserver" = 0 <;>
      by_cases e2 : env.callExit "systemctl start kube-controller-manager" = 0 <;>
      by_cases e3 : env.callExit "systemctl start kube-scheduler" = 0 <;>
      simp [start_master, hrf, start_service_eval, pyFormat_available, List.forM,
        setState_not_mem_buildTrace, setState_not_mem_renderEvents, e1, e2, e3]

/-- C1 witness: concrete run in which kube-controller-manager fails to
start while the other two succeed. -/
theorem start_master_flag_iff_witness :
    ((envDemoFail ["systemctl start kube-controller-manager"]).sdn_subnet =
        some "10.1.2.0/24" ∨
      ((envDemoFail ["systemctl start kube-controller-manager"]).sdn_subnet =
          Option.none ∧
        (envDemoFail ["systemctl start kube-controller-manager"]).cfg_cidr =
          some "10.1.2.0/24")) ∧
    pyRstrip (envDemoFail ["systemctl start kube-controller-manager"]).rawArch ∈
      ["amd64", "arm", "arm64", "ppc64le"] ∧
    ((start_master (envDemoFail ["systemctl start kube-controller-manager"])
        ⟨"http://etcd:2379"⟩).out = .ok () ∧
     ∀ s ∈ (["kube-apiserver", "kube-controller-manager", "kube-scheduler"] : List String),
       (Event.setState (s ++ ".available") ∈
          (start_master (envDemoFail ["systemctl start kube-controller-manager"])
            ⟨"http://etcd:2379"⟩).trace ↔
         (envDemoFail ["systemctl start kube-controller-manager"]).callExit
           ("systemctl start " ++ s) = 0)) :=
  ⟨Or.inl (by decide), by decide,
    start_master_flag_iff (envDemoFail ["systemctl start kube-controller-manager"])
      ⟨"http://etcd:2379"⟩ "10.1.2.0/24" (Or.inl (by decide)) (by decide)⟩

/-! ## C2: the DNS-launch handler on a failed cluster probe -/

/-- C2: when `kubectl cluster-info` exits non-zero, `launch_dns` logs,
removes the flag named `kubedns.available` — not `kube-dns.available`, the
flag that gates the handler and is set on success — and returns without
error, performing no namespace command, no render and no service start.
This closed evaluation exhibits the exact trace. -/
theorem launch_dns_probe_failure_removes_misspelled_flag :
    launch_dns (envDemoFail ["kubectl cluster-info"]) =
      ⟨[.statusSet "maintenance" "Rendering the Kubernetes DNS systemd files.",
        .call "kubectl cluster-info",
        .log "kubectl command failed, waiting for apiserver to start.",
        .removeState "kubedns.available"],
       .ok ()⟩ := by
  decide

/-! ## C3: the install loop's malformed format string -/

/-- C3: `install` never reaches any install-copy command: building the copy
command for the first binary with `'install \x7b0\x7d/\x7b1\x7d \x7b3\x7d'.format(...)`
raises `IndexError` (replacement index 3, but only three arguments), even in
an environment where every command would succeed.  The trace stops right
after the tar extraction. -/
theorem install_always_raises_index_error :
    install envDemo =
      ⟨[.call "tar -xvzf /charm/files/kubernetes.tar.gz -C /charm/files"],
       .error .indexError⟩ := by
  decide

/-! ## C4: the etcd keys of the render context -/

/-- C4: whenever the context builder completes with a relation descriptor
supplied, the context binds exactly `connection_string`, `etcd_dir`
(= `/etc/ssl/etcd`), `etcd_ca`, `etcd_key` and `etcd_cert` (the three fixed
`client-*.pem` paths under that directory), and the credential
materialisation is invoked; with the descriptor omitted, none of the five
keys is bound and no credential materialisation happens. -/
theorem buildContext_etcd_keys (env : Env) (r : Reldata) (dnsCidr : String)
    (hsrc : env.sdn_subnet = some dnsCidr ∨
      (env.sdn_subnet = Option.none ∧ env.cfg_cidr = some dnsCidr))
    (harch : pyRstrip env.rawArch ∈ ["amd64", "arm", "arm64", "ppc64le"]) :
    (∀ ctx, (buildContext env (some r)).out = .ok ctx →
      ctxGet ctx "connection_string" = some (Value.prim (.str r.connection_string)) ∧
      ctxGet ctx "etcd_dir" = some (Value.prim (.str "/etc/ssl/etcd")) ∧
      ctxGet ctx "etcd_ca" = some (Value.prim (.str "/etc/ssl/etcd/client-ca.pem")) ∧
      ctxGet ctx "etcd_key" = some (Value.prim (.str "/etc/ssl/etcd/client-key.pem")) ∧
      ctxGet ctx "etcd_cert" = some (Value.prim (.str "/etc/ssl/etcd/client-cert.pem"))) ∧
    Event.saveCreds "/etc/ssl/etcd/client-key.pem" "/etc/ssl/etcd/client-cert.pem"
        "/etc/ssl/etcd/client-ca.pem" ∈ (buildContext env (some r)).trace ∧
    (∀ ctx, (buildContext env Option.none).out = .ok ctx →
      ctxGet ctx "connection_string" = none ∧
      ctxGet ctx "etcd_dir" = none ∧
      ctxGet ctx "etcd_ca" = none ∧
      ctxGet ctx "etcd_key" = none ∧
      ctxGet ctx "etcd_cert" = none) ∧
    (∀ kp cp ap, Event.saveCreds kp cp ap ∉ (buildContext env Option.none).trace) := by
  have hg := gather_eval env dnsCidr hsrc
  have hbs := buildContext_eval env (some r) _ hg harch
  have hbn := buildContext_eval env Option.none _ hg harch
  refine ⟨?_, ?_, ?_, ?_⟩
  · intro ctx hctx
    rw [hbs] at hctx
    simp only [Except.ok.injEq] at hctx
    subst hctx
    simp only [fullContext, ctxGet_append]
    refine ⟨?_, ?_, ?_, ?_, ?_⟩ <;>
      (rw [ctxGet_configCtx env _ (by decide) (by decide),
           ctxGet_pillarOf env dnsCidr _ (by decide)]
       simp [ctxGet, etcdCtx])
  · rw [hbs]
    simp [buildTrace]
  · intro ctx hctx
    rw [hbn] at hctx
    simp only [Except.ok.injEq] at hctx
    subst hctx
    simp only [fullContext, ctxGet_append]
    refine ⟨?_, ?_, ?_, ?_, ?_⟩ <;>
      (rw [ctxGet_configCtx env _ (by decide) (by decide),
           ctxGet_pillarOf env dnsCidr _ (by decide)]
       simp [ctxGet, etcdCtx])
  · intro kp cp ap
    rw [hbn]
    simp only [buildTrace]
    split_ifs <;> simp

/-- C4 witness: the demo environment with a concrete connection string. -/
theorem buildContext_etcd_keys_witness :
    (envDemo.sdn_subnet = some "10.1.2.0/24" ∨
      (envDemo.sdn_subnet = Option.none ∧ envDemo.cfg_cidr = some "10.1.2.0/24")) ∧
    pyRstrip envDemo.rawArch ∈ ["amd64", "arm", "arm64", "ppc64le"] ∧
    ((∀ ctx, (buildContext envDemo (some ⟨"http://etcd:2379"⟩)).out = .ok ctx →
      ctxGet ctx "connection_string" =
        some (Value.prim (.str (Reldata.mk "http://etcd:2379").connection_string)) ∧
      ctxGet ctx "etcd_dir" = some (Value.prim (.str "/etc/ssl/etcd")) ∧
      ctxGet ctx "etcd_ca" = some (Value.prim (.str "/etc/ssl/etcd/client-ca.pem")) ∧
      ctxGet ctx "etcd_key" = some (Value.prim (.str "/etc/ssl/etcd/client-key.pem")) ∧
      ctxGet ctx "etcd_cert" = some (Value.prim (.str "/etc/ssl/etcd/client-cert.pem"))) ∧
    Event.saveCreds "/etc/ssl/etcd/client-key.pem" "/etc/ssl/etcd/client-cert.pem"
        "/etc/ssl/etcd/client-ca.pem" ∈ (buildContext envDemo (some ⟨"http://etcd:2379"⟩)).trace ∧
    (∀ ctx, (buildContext envDemo Option.none).out = .ok ctx →
      ctxGet ctx "connection_string" = none ∧
      ctxGet ctx "etcd_dir" = none ∧
      ctxGet ctx "etcd_ca" = none ∧
      ctxGet ctx "etcd_key" = none ∧
      ctxGet ctx "etcd_cert" = none) ∧
    (∀ kp cp ap, Event.saveCreds kp cp ap ∉ (buildContext envDemo Option.none).trace)) :=
  ⟨Or.inl (by decide), by decide,
    buildContext_etcd_keys envDemo ⟨"http://etcd:2379"⟩ "10.1.2.0/24"
      (Or.inl (by decide)) (by decide)⟩

/-! ## C6: architecture validation -/

/-- C6: `arch` returns the whitespace-trimmed detected value unchanged when
it is one of amd64/arm/arm64/ppc64le; for any other value it first sets the
unit status to blocked with a message naming the architecture and then
raises that same message as an exception, and the exception makes the
enclosing `render_files` fail with no render event performed. -/
theorem arch_validation (env : Env) (rd : Option Reldata) (dnsCidr : String)
    (hsrc : env.sdn_subnet = some dnsCidr ∨
      (env.sdn_subnet = Option.none ∧ env.cfg_cidr = some dnsCidr)) :
    (pyRstrip env.rawArch ∈ ["amd64", "arm", "arm64", "ppc64le"] →
      arch env = ⟨[.call "dpkg --print-architecture"], .ok (pyRstrip env.rawArch)⟩) ∧
    (pyRstrip env.rawArch ∉ ["amd64", "arm", "arm64", "ppc64le"] →
      (arch env).out = .error (.exception
        ("Unsupported machine architecture: " ++ pyRstrip env.rawArch)) ∧
      Event.statusSet "blocked"
          ("Unsupported machine architecture: " ++ pyRstrip env.rawArch) ∈
        (arch env).trace ∧
      (render_files env rd).out = .error (.exception
        ("Unsupported machine architecture: " ++ pyRstrip env.rawArch)) ∧
      ∀ src tgt c, Event.render src tgt c ∉ (render_files env rd).trace) := by
  constructor
  · exact fun h => arch_supported env h
  · intro h
    have hg := gather_eval env dnsCidr hsrc
    have hrf := render_files_arch_fail env rd _ hg h
    refine ⟨?_, ?_, ?_, ?_⟩
    · rw [arch_unsupported env h]
    · rw [arch_unsupported env h]
      simp
    · rw [hrf]
    · intro src tgt c hc
      rw [hrf] at hc
      revert hc
      cases rd <;> (simp only [buildTraceFail]; split_ifs <;> simp)

/-- C6 witness: amd64 passes through unchanged; s390x is rejected, blocks
the unit and aborts the render with no render event. -/
theorem arch_validation_witness :
    (envDemo.sdn_subnet = some "10.1.2.0/24" ∨
      (envDemo.sdn_subnet = Option.none ∧ envDemo.cfg_cidr = some "10.1.2.0/24")) ∧
    pyRstrip envDemo.rawArch ∈ ["amd64", "arm", "arm64", "ppc64le"] ∧
    arch envDemo = ⟨[.call "dpkg --print-architecture"], .ok "amd64"⟩ ∧
    pyRstrip (envArchBad.rawArch) ∉ ["amd64", "arm", "arm64", "ppc64le"] ∧
    (arch envArchBad).out =
      .error (.exception "Unsupported machine architecture: s390x") ∧
    (render_files envArchBad Option.none).out =
      .error (.exception "Unsupported machine architecture: s390x") ∧
    ∀ src tgt c, Event.render src tgt c ∉ (render_files envArchBad Option.none).trace := by
  have hgood := (arch_validation envDemo Option.none "10.1.2.0/24" (Or.inl (by decide))).1
    (by decide)
  have hbad := (arch_validation envArchBad Option.none "10.1.2.0/24" (Or.inl (by decide))).2
    (by decide)
  exact ⟨Or.inl (by decide), by decide, hgood, by decide, hbad.1, hbad.2.2.1, hbad.2.2.2⟩

/-! ## C7: namespace handling after a successful probe -/

/-- C7: once the cluster probe succeeds, `launch_dns` runs the namespace
creation command exactly when the `kubectl get namespace kube-system`
check exits non-zero, and a non-zero exit of the creation command itself
surfaces as an unhandled `CalledProcessError`. -/
theorem launch_dns_namespace_create_iff (env : Env)
    (hprobe : env.callExit "kubectl cluster-info" = 0) :
    (Event.call "kubectl create namespace kube-system" ∈ (launch_dns env).trace ↔
      env.callExit "kubectl get namespace kube-system" ≠ 0) ∧
    (env.callExit "kubectl get namespace kube-system" ≠ 0 →
      env.callExit "kubectl create namespace kube-system" ≠ 0 →
      (launch_dns env).out =
        .error (.calledProcessError "kubectl create namespace kube-system")) := by
  rcases hR : render_files env Option.none with ⟨T, o⟩
  have hT : ∀ ce, Event.call ce ∈ T → ce = "dpkg --print-architecture" := by
    intro ce hc
    exact call_in_render_files env Option.none ce (by rw [hR]; exact hc)
  have hTc : Event.call "kubectl create namespace kube-system" ∉ T := by
    intro hc
    exact absurd (hT _ hc) (by decide)
  by_cases h2 : env.callExit "kubectl get namespace kube-system" = 0
  · cases o with
    | error e =>
      simp [launch_dns, hprobe, h2, hR, hTc]
    | ok u =>
      cases u
      by_cases hd : env.callExit "systemctl start kube-dns" = 0 <;>
        simp [launch_dns, hprobe, h2, hR, hTc, start_service_eval, hd]
  · by_cases h3 : env.callExit "kubectl create namespace kube-system" = 0
    · cases o with
      | error e =>
        simp [launch_dns, hprobe, h2, h3, hR, hTc]
      | ok u =>
        cases u
        by_cases hd : env.callExit "systemctl start kube-dns" = 0 <;>
          simp [launch_dns, hprobe, h2, h3, hR, hTc, start_service_eval, hd]
    · simp [launch_dns, hprobe, h2, h3, hR, hTc, Res.raise]

/-- C7 witness: probe succeeds, the namespace-existence check and the
creation command both fail, so creation is attempted and its failure is
fatal. -/
theorem launch_dns_namespace_create_iff_witness :
    (envDemoFail ["kubectl get namespace kube-system",
        "kubectl create namespace kube-system"]).callExit "kubectl cluster-info" = 0 ∧
    ((Event.call "kubectl create namespace kube-system" ∈
        (launch_dns (envDemoFail ["kubectl get namespace kube-system",
          "kubectl create namespace kube-system"])).trace ↔
      (envDemoFail ["kubectl get namespace kube-system",
        "kubectl create namespace kube-system"]).callExit
          "kubectl get namespace kube-system" ≠ 0) ∧
    ((envDemoFail ["kubectl get namespace kube-system",
        "kubectl create namespace kube-system"]).callExit
          "kubectl get namespace kube-system" ≠ 0 →
      (envDemoFail ["kubectl get namespace kube-system",
        "kubectl create namespace kube-system"]).callExit
          "kubectl create namespace kube-system" ≠ 0 →
      (launch_dns (envDemoFail ["kubectl get namespace kube-system",
        "kubectl create namespace kube-system"])).out =
        .error (.calledProcessError "kubectl create namespace kube-system"))) :=
  ⟨by decide,
    launch_dns_namespace_create_iff
      (envDemoFail ["kubectl get namespace kube-system",
        "kubectl create namespace kube-system"]) (by decide)⟩

/-! ## C8: the render orchestration -/

/-- C8: whenever `render_files` completes, it has created each of the two
working directories exactly when it did not already exist, and it has
rendered both files of all four services against the assembled context;
that context nests `dns_server` (derived from the persisted SDN subnet
when present, otherwise from the configured cidr), `dns_replicas = 1` and
`dns_domain` under the `pillar` key. -/
theorem render_files_orchestration (env : Env) (rd : Option Reldata) (dnsCidr : String)
    (hsrc : env.sdn_subnet = some dnsCidr ∨
      (env.sdn_subnet = Option.none ∧ env.cfg_cidr = some dnsCidr))
    (harch : pyRstrip env.rawArch ∈ ["amd64", "arm", "arm64", "ppc64le"]) :
    (render_files env rd).out = .ok () ∧
    (Event.makedirs (pathJoin env.charm_dir "files/kubernetes") ∈ (render_files env rd).trace ↔
      env.pathExists (pathJoin env.charm_dir "files/kubernetes") = false) ∧
    (Event.makedirs (pathJoin env.charm_dir "files/manifests") ∈ (render_files env rd).trace ↔
      env.pathExists (pathJoin env.charm_dir "files/manifests") = false) ∧
    (∀ e ∈ renderEvents (fullContext env rd (pillarOf env dnsCidr)),
      e ∈ (render_files env rd).trace) ∧
    ctxGet (fullContext env rd (pillarOf env dnsCidr)) "pillar" =
      some (Value.dict
        [("dns_server", .str (get_dns_ip dnsCidr)),
         ("dns_replicas", .int 1),
         ("dns_domain",
           match env.cfg_dns_domain with
           | some d => .str d
           | none => .pynone)]) := by
  have hg := gather_eval env dnsCidr hsrc
  have hrf := render_files_eval env rd _ hg harch
  have hne := pathJoin_files_ne env.charm_dir
  refine ⟨?_, ?_, ?_, ?_, ?_⟩
  · rw [hrf]
  · rw [hrf]
    cases rd <;>
      (by_cases h1 : env.pathExists (pathJoin env.charm_dir "files/kubernetes") <;>
       by_cases h2 : env.pathExists (pathJoin env.charm_dir "files/manifests") <;>
       simp [buildTrace, renderEvents, h1, h2, hne])
  · rw [hrf]
    cases rd <;>
      (by_cases h1 : env.pathExists (pathJoin env.charm_dir "files/kubernetes") <;>
       by_cases h2 : env.pathExists (pathJoin env.charm_dir "files/manifests") <;>
       simp [buildTrace, renderEvents, h1, h2, hne.symm])
  · intro e he
    rw [hrf]
    exact List.mem_append.mpr (Or.inr he)
  · simp only [fullContext, ctxGet_append]
    rw [ctxGet_configCtx env "pillar" (by decide) (by decide)]
    cases rd <;> simp [ctxGet, etcdCtx, pillarOf]

/-- C8 witness: demo environment in which the kubernetes directory is
missing (gets created) and the manifests directory exists (is left alone). -/
theorem render_files_orchestration_witness :
    (envDirMissing.sdn_subnet = some "10.1.2.0/24" ∨
      (envDirMissing.sdn_subnet = Option.none ∧
        envDirMissing.cfg_cidr = some "10.1.2.0/24")) ∧
    pyRstrip envDirMissing.rawArch ∈ ["amd64", "arm", "arm64", "ppc64le"] ∧
    ((render_files envDirMissing Option.none).out = .ok () ∧
     (Event.makedirs (pathJoin envDirMissing.charm_dir "files/kubernetes") ∈
        (render_files envDirMissing Option.none).trace ↔
       envDirMissing.pathExists (pathJoin envDirMissing.charm_dir "files/kubernetes") =
         false) ∧
     (Event.makedirs (pathJoin envDirMissing.charm_dir "files/manifests") ∈
        (render_files envDirMissing Option.none).trace ↔
       envDirMissing.pathExists (pathJoin envDirMissing.charm_dir "files/manifests") =
         false) ∧
     (∀ e ∈ renderEvents (fullContext envDirMissing Option.none
        (pillarOf envDirMissing "10.1.2.0/24")),
       e ∈ (render_files envDirMissing Option.none).trace) ∧
     ctxGet (fullContext envDirMissing Option.none (pillarOf envDirMissing "10.1.2.0/24"))
         "pillar" =
       some (Value.dict
        [("dns_server", .str (get_dns_ip "10.1.2.0/24")),
         ("dns_replicas", .int 1),
         ("dns_domain",
           match envDirMissing.cfg_dns_domain with
           | some d => .str d
           | none => .pynone)])) :=
  ⟨Or.inl (by decide), by decide,
    render_files_orchestration envDirMissing Option.none "10.1.2.0/24"
      (Or.inl (by decide)) (by decide)⟩

/-! ## C9: the tar extraction's exit code is discarded -/

/-- C9: `install` behaves identically — same trace, same outcome —
whatever exit code the tar-extraction command returns: the returned code
is bound and then never consulted, so a failed extraction raises nothing
and the handler proceeds into the per-binary loop regardless. -/
theorem install_ignores_tar_exit (env : Env) (k : Int) :
    install { env with
      callExit := fun c => if c = tarCommand env then k else env.callExit c } =
      install env := by
  rw [install_eval, install_eval]
  rfl

end KMaster
